import Mathlib

/-!
Verification of the PDF-to-PNG converter (`main.py`, `test_pypdfium2.py`).

The Python code is shallowly embedded: the external collaborators
(filesystem, the pdfium rendering engine, the image codec) are modelled as
an explicit `World`, converter methods become pure functions threading a
`ConverterState` and recording their side effects in a `ConvertTrace`.
-/

abbrev FsPath := String

/-- An opened PDF document as delivered by the external rendering library:
its page count and the point-size (width, height) of each page. -/
structure PdfDoc where
  pageCount : Nat
  pageSizes : Nat → ℚ × ℚ

/-- The environment the scripts run against: which paths exist
(`os.path.exists`), what document each existing path contains
(`pdfium.PdfDocument`), and whether the external render
(`page.render`) and image write (`image.save`) succeed. -/
structure World where
  pathExists : FsPath → Bool
  docs : FsPath → PdfDoc
  renderOk : FsPath → Nat → Bool
  saveOk : FsPath → Bool

/-- Errors raised inside the converter methods (`FileNotFoundError`,
`ValueError` for an invalid page, and opaque failures of the external
renderer / image codec). -/
inductive PdfError where
  | fileNotFound (p : FsPath)
  | invalidPage (page : Int) (count : Nat)
  | renderFailure
  | saveFailure
deriving DecidableEq, Repr

/-- `self.pdf` once loaded: the external `PdfDocument` is modelled as
carrying the path it was opened from (the `name` read at `main.py:30`). -/
structure LoadedPdf where
  name : FsPath
  doc : PdfDoc

/-- The mutable state of a `PDFConverter` instance (`self.pdf`). -/
structure ConverterState where
  pdf : Option LoadedPdf

/-- A single call to the external renderer, with the arguments the code
passes (`pdf_page.render(scale=scale, rotation=0)`, `main.py:43`). -/
structure RenderCall where
  page : Nat
  scale : ℚ
  rotation : ℤ
deriving DecidableEq

/-- Side effects of one `convert_to_image` call: render invocations,
files written (path and pixel dimensions), directories created. -/
structure ConvertTrace where
  renderCalls : List RenderCall
  writes : List (FsPath × ℤ × ℤ)
  mkdirs : List FsPath
deriving DecidableEq

def emptyTrace : ConvertTrace := ⟨[], [], []⟩

/-- Result of `convert_to_image`: the Python return value (`None` on any
caught exception), the exception that was caught if any, the state after
the call, and the side effects performed. -/
structure ConvertResult where
  result : Option FsPath
  err : Option PdfError
  state : ConverterState
  trace : ConvertTrace

/-- Does the character list start with the given (possibly empty) list? -/
def startsWithChars : List Char → List Char → Bool
  | _, [] => true
  | [], _ :: _ => false
  | a :: s, b :: t => a = b && startsWithChars s t

/-- Python's `t in s` on character lists. -/
def hasSub (s t : List Char) : Bool :=
  match s with
  | [] => t.isEmpty
  | _ :: rest => startsWithChars s t || hasSub rest t

/-- The suffix after the first occurrence of `t` in `s`, if `t` occurs. -/
def afterSub (s t : List Char) : Option (List Char) :=
  match s with
  | [] => if t.isEmpty then some [] else none
  | _ :: rest =>
      if startsWithChars s t then some (s.drop t.length) else afterSub rest t

/-- The prefix of `s` before the first occurrence of `t` (all of `s` when
`t` does not occur). -/
def upToSub (s t : List Char) : List Char :=
  match s with
  | [] => []
  | c :: rest => if startsWithChars s t then [] else c :: upToSub rest t

/-- Python's `s.split(t)[1]` for a `t` known to occur in `s`: the piece
between the first and second occurrences of `t`. -/
def splitSecondField (s t : List Char) : List Char :=
  match afterSub s t with
  | some r => upToSub r t
  | none => []

/-- Splitting a character list on a single separator character
(Python's `s.split(c)`). -/
def splitOnChar (sep : Char) : List Char → List (List Char)
  | [] => [[]]
  | c :: cs =>
      let r := splitOnChar sep cs
      if c = sep then [] :: r
      else
        match r with
        | [] => [[c]]
        | h :: t => (c :: h) :: t

/-- Python's `s.strip()`: drop whitespace from both ends. -/
def stripChars (s : List Char) : List Char :=
  ((s.dropWhile Char.isWhitespace).reverse.dropWhile Char.isWhitespace).reverse

/-- `os.path.basename` for POSIX paths: the part after the last slash. -/
def basename (p : String) : String :=
  ⟨(p.data.reverse.takeWhile (fun c => c ≠ '/')).reverse⟩

/-- Index of the last occurrence of `'.'` in a character list. -/
def lastDotIdx (cs : List Char) : Option Nat :=
  ((cs.enum.filter (fun x => x.2 == '.')).getLast?).map (fun x => x.1)

/-- The root part of `os.path.splitext` on a slash-free name: cut at the
last dot unless every character before it is itself a dot. -/
def splitextRoot (s : String) : String :=
  match lastDotIdx s.data with
  | none => s
  | some di =>
      if (List.range di).all (fun i => s.data.getD i '.' == '.') then s
      else ⟨s.data.take di⟩

/-- `PDFConverter.load_pdf` (`main.py:19-24`): raise `FileNotFoundError`
when the path does not exist, otherwise open the document into `self.pdf`
and return its page count. -/
def load_pdf (w : World) (st : ConverterState) (pdf_path : FsPath) :
    Except PdfError (Nat × ConverterState) :=
  if w.pathExists pdf_path then
    .ok ((w.docs pdf_path).pageCount, ⟨some ⟨pdf_path, w.docs pdf_path⟩⟩)
  else
    .error (.fileNotFound pdf_path)

/-- Lines 30-33 of `main.py`: reload via `load_pdf` when `self.pdf` is
unset or was opened from a different path, otherwise reuse it. -/
def loadStep (w : World) (st : ConverterState) (pdf_path : FsPath) :
    Except PdfError (Nat × ConverterState) :=
  match st.pdf with
  | none => load_pdf w st pdf_path
  | some lp =>
      if lp.name = pdf_path then .ok (lp.doc.pageCount, st)
      else load_pdf w st pdf_path

/-- Modelled from the spec: the external renderer's pixel buffer is sized
to the page's point-dimensions multiplied by the scale, rounded
(`round(page_size_in_points * (dpi / 72))`, spec sections 4.3 and 8);
the rendering engine itself is not part of this repository. -/
def renderDims (size : ℚ × ℚ) (scale : ℚ) : ℤ × ℤ :=
  (round (size.1 * scale), round (size.2 * scale))

/-- The output path synthesized at `main.py:49-53` when none is given:
`output/<basename-without-extension>_page_<page+1>.png`. -/
def synthPath (pdf_path : FsPath) (page : Int) : FsPath :=
  "output/" ++ splitextRoot (basename pdf_path) ++ "_page_" ++ toString (page + 1) ++ ".png"

/-- `PDFConverter.convert_to_image` (`main.py:26-62`): load if needed,
validate the page index, render at `scale = dpi / 72` with rotation 0,
synthesize the output path when none is supplied (creating `output/`),
and save; every raised exception is caught and turned into `None`. -/
def convert_to_image (w : World) (st : ConverterState) (pdf_path : FsPath)
    (output_path : Option FsPath) (dpi : ℚ) (page : Int) : ConvertResult :=
  match loadStep w st pdf_path with
  | .error e => ⟨none, some e, st, emptyTrace⟩
  | .ok (page_count, st') =>
    if page < 0 ∨ page ≥ (page_count : Int) then
      ⟨none, some (.invalidPage page page_count), st', emptyTrace⟩
    else
      let pIdx := page.toNat
      let doc := match st'.pdf with
        | some lp => lp.doc
        | none => ⟨0, fun _ => (0, 0)⟩
      let scale := dpi / 72
      let rcall : RenderCall := ⟨pIdx, scale, 0⟩
      if w.renderOk pdf_path pIdx then
        let dims := renderDims (doc.pageSizes pIdx) scale
        let outp := match output_path with
          | some p => p
          | none => synthPath pdf_path page
        let dirs := match output_path with
          | some _ => ([] : List FsPath)
          | none => ["output"]
        if w.saveOk outp then
          ⟨some outp, none, st', ⟨[rcall], [(outp, dims)], dirs⟩⟩
        else
          ⟨none, some .saveFailure, st', ⟨[rcall], [], dirs⟩⟩
      else
        ⟨none, some .renderFailure, st', ⟨[rcall], [], []⟩⟩

/-- `os.path.join` for POSIX paths, two arguments. -/
def pathJoin (d b : String) : String :=
  if b.data.head? = some '/' then b
  else if d = "" ∨ d.data.getLast? = some '/' then d ++ b
  else d ++ "/" ++ b

/-- The per-page output filename built at `main.py:74`. -/
def batchOutPath (output_dir pdf_name : String) (page_num : Nat) : FsPath :=
  pathJoin output_dir (pdf_name ++ "_page_" ++ toString (page_num + 1) ++ ".png")

/-- One iteration of the loop at `main.py:73-78`: convert the page and
append the returned path to `converted_files` when it is not `None`. -/
def batchStep (w : World) (pdf_path : FsPath) (output_dir pdf_name : String) (dpi : ℚ)
    (acc : List FsPath × ConverterState) (page_num : Nat) : List FsPath × ConverterState :=
  let r := convert_to_image w acc.2 pdf_path
      (some (batchOutPath output_dir pdf_name page_num)) dpi (page_num : Int)
  match r.result with
  | some res => (acc.1 ++ [res], r.state)
  | none => (acc.1, r.state)

/-- `PDFConverter.convert_all_pages` (`main.py:64-84`): load the PDF,
then run `convert_to_image` for each page index of `range(page_count)`,
collecting the successfully written paths; a failure of `load_pdf` is
caught and yields the empty list. -/
def convert_all_pages (w : World) (st : ConverterState) (pdf_path : FsPath)
    (output_dir : String) (dpi : ℚ) : List FsPath × ConverterState :=
  match load_pdf w st pdf_path with
  | .error _ => ([], st)
  | .ok (page_count, st1) =>
      let pdf_name := splitextRoot (basename pdf_path)
      (List.range page_count).foldl (batchStep w pdf_path output_dir pdf_name dpi) ([], st1)

/-- The fixed candidate list probed at `test_pypdfium2.py:36-40`. -/
def stsong_font_paths : List FsPath :=
  ["/System/Library/Fonts/Supplemental/Songti.ttc",
   "/System/Library/Fonts/Songti.ttc",
   "/Library/Fonts/Songti.ttc"]

/-- Outcome of the `subprocess.run(['system_profiler', ...])` call:
either it completed with a return code and stdout, or it raised
(timeout, missing binary, any other exception). -/
inductive SubprocessOutcome where
  | completed (returncode : Int) (stdout : String)
  | failed

/-- Python's `t in s` on strings. -/
def containsSub (s t : String) : Bool := hasSub s.data t.data

/-- Python's `s.lower()`. -/
def lowerStr (s : String) : String := ⟨s.data.map Char.toLower⟩

/-- The body of the scan loop at `test_pypdfium2.py:51-57` for one line of
`system_profiler` output: a line mentioning a `song` `.ttc` font whose
`Location:` field names an existing path. -/
def scanFontLine (w : World) (line : String) : Option FsPath :=
  if containsSub (lowerStr line) "song" ∧ containsSub (lowerStr line) ".ttc" then
    if containsSub line "Location:" then
      let path : FsPath := ⟨stripChars (splitSecondField line.data "Location:".data)⟩
      if w.pathExists path then some path else none
    else none
  else none

/-- `PDFConverter._find_stsong_font` (`test_pypdfium2.py:34-61`): return
the first existing candidate path; otherwise run `system_profiler` and
scan its lines, swallowing every subprocess error; otherwise `None`. -/
def _find_stsong_font (w : World) (sub : SubprocessOutcome) : Option FsPath :=
  match stsong_font_paths.find? w.pathExists with
  | some p => some p
  | none =>
      match sub with
      | .failed => none
      | .completed rc out =>
          if rc = 0 then
            ((splitOnChar '\n' out.data).map (fun cs => (⟨cs⟩ : String))).findSome?
              (scanFontLine w)
          else none

/-- Parse a nonempty list of decimal digits into a number. -/
def digitsToNat : List Char → Nat → Option Nat
  | [], acc => some acc
  | c :: cs, acc =>
      if c.isDigit then digitsToNat cs (acc * 10 + (c.toNat - 48)) else none

/-- Python's `int(s)` on a string argument, as `Option`: strip
whitespace, allow one sign, then decimal digits; anything else raises
`ValueError` (modelled as `none`). -/
def pyInt (s : String) : Option Int :=
  match stripChars s.data with
  | '-' :: ds =>
      if ds.isEmpty then none else (digitsToNat ds 0).map (fun n => -(n : Int))
  | '+' :: ds =>
      if ds.isEmpty then none else (digitsToNat ds 0).map (fun n => (n : Int))
  | ds =>
      if ds.isEmpty then none else (digitsToNat ds 0).map (fun n => (n : Int))

/-- The variables set by the argument-parsing block of `main`
(`main.py:100-127`). -/
structure ParsedArgs where
  pdf_path : FsPath
  output_path : Option FsPath
  dpi : Int
  page : Int
  convert_all : Bool
  output_dir : String
deriving DecidableEq, Repr

/-- The argument-parsing block of `main` (`main.py:100-127`), for
`sys.argv` with at least two entries. Defaults: `dpi = 150`, `page = 0`.
The `try` block first binds `dpi = int(argv[3])`, then
`page = int(argv[4]) - 1`; a `ValueError` from either `int` call jumps to
the shared handler, which resets `dpi` to 150 and leaves `page` at 0. -/
def parse_args (argv : List String) : ParsedArgs :=
  let pdf_path := argv.getD 1 ""
  if argv.length > 2 then
    let a2 := argv.getD 2 ""
    if a2 = "--all" then
      { pdf_path := pdf_path, output_path := none, dpi := 150, page := 0,
        convert_all := true,
        output_dir := if argv.length > 3 then argv.getD 3 "" else "output" }
    else
      let outp := if a2.data.head? = some '/' then a2 else pathJoin "output" a2
      let dp :=
        if argv.length > 3 then
          match pyInt (argv.getD 3 "") with
          | none => ((150 : Int), (0 : Int))
          | some d =>
              if argv.length > 4 then
                match pyInt (argv.getD 4 "") with
                | none => ((150 : Int), (0 : Int))
                | some p => (d, p - 1)
              else (d, 0)
        else ((150 : Int), (0 : Int))
      { pdf_path := pdf_path, output_path := some outp, dpi := dp.1, page := dp.2,
        convert_all := false, output_dir := "output" }
  else
    { pdf_path := pdf_path, output_path := none, dpi := 150, page := 0,
      convert_all := false, output_dir := "output" }

/-- Observable outcome of one run of `main` (`main.py:87-151`):
the process exit code, whether the usage text was printed, the value
returned by the single-page conversion (when in that mode), and whether
a failure message was printed. -/
structure CliOutcome where
  exitCode : Nat
  usagePrinted : Bool
  convResult : Option FsPath
  failMsg : Bool
deriving DecidableEq, Repr

/-- `main` (`main.py:87-151`): fewer than two argv entries prints usage
and calls `sys.exit(1)`; otherwise the script parses arguments, runs the
conversion, prints a success or failure message, and returns normally
(exit code 0). -/
def main_cli (w : World) (argv : List String) : CliOutcome :=
  if argv.length < 2 then
    { exitCode := 1, usagePrinted := true, convResult := none, failMsg := false }
  else
    let a := parse_args argv
    if a.convert_all then
      let r := convert_all_pages w ⟨none⟩ a.pdf_path a.output_dir (a.dpi : ℚ)
      { exitCode := 0, usagePrinted := false, convResult := none, failMsg := r.1.isEmpty }
    else
      let r := convert_to_image w ⟨none⟩ a.pdf_path a.output_path (a.dpi : ℚ) a.page
      { exitCode := 0, usagePrinted := false, convResult := r.result,
        failMsg := r.result.isNone }

/-- A directory of written image files: the pixel dimensions stored at
each path, if any. -/
def FileStore := FsPath → Option (ℤ × ℤ)

/-- Applying a list of file writes in order; a later write to the same
path replaces the earlier content (`image.save` truncates). -/
def applyWrites (fs : FileStore) (ws : List (FsPath × ℤ × ℤ)) : FileStore :=
  ws.foldl (fun f pw => fun q => if q = pw.1 then some pw.2 else f q) fs

/-- The pdfium engine's global font-substitution configuration: the
substitutions actually installed into the engine (via
`FPDF_SetSystemFontInfo` or a font-resolution callback). Rasterization
consumes this state. -/
structure PdfiumLibState where
  installedMappings : List (String × String)
deriving DecidableEq

/-- The engine state right after `FPDF_InitLibraryWithConfig`: no custom
substitutions installed. -/
def freshLibState : PdfiumLibState := ⟨[]⟩

/-- The fallback Times New Roman locations probed at
`test_pypdfium2.py:111-115`. -/
def times_font_paths : List FsPath :=
  ["/System/Library/Fonts/Supplemental/Times.ttc",
   "/System/Library/Fonts/Times.ttc",
   "/Library/Fonts/Times New Roman.ttf"]

/-- `PDFConverter._setup_english_font_mapping`
(`test_pypdfium2.py:96-131`): builds a local `font_mappings` dict, prints
it, probes the Times font locations, and tests
`hasattr(pdfium_c, 'FPDF_SetSystemFontInfo')` — but only prints in every
branch; it returns the engine state it was given. `hasSetFontInfo` is
whether the raw binding exposes `FPDF_SetSystemFontInfo`. -/
def _setup_english_font_mapping (w : World) (hasSetFontInfo : Bool)
    (lib : PdfiumLibState) : PdfiumLibState × List String :=
  let font_mappings : List (String × String) :=
    [("Times-Roman", "Times New Roman"), ("Times", "Times New Roman"),
     ("Helvetica", "Times New Roman"), ("Arial", "Times New Roman")]
  let mappingLogs :=
    "Setting up Times New Roman font mapping:" ::
      font_mappings.map (fun m => "   " ++ m.1 ++ " -> " ++ m.2)
  let timesLog :=
    match times_font_paths.find? w.pathExists with
    | some p => ["Found Times New Roman at: " ++ p]
    | none => ["Times New Roman not found in standard locations"]
  let configLog :=
    if hasSetFontInfo then ["Times New Roman font mapping configured"]
    else ["Using basic font directory configuration"]
  (lib, mappingLogs ++ timesLog ++ configLog)

/-- Result of `PDFConverter._init_pdfium_library`: the engine state, the
`pdfium._library_initialized` flag, and the lines printed. -/
structure InitResult where
  lib : PdfiumLibState
  initialized : Bool
  logs : List String
deriving DecidableEq

/-- `PDFConverter._init_pdfium_library` (`test_pypdfium2.py:64-94`):
when the module-level flag is unset, initialize the engine with a
version-2 config and, if an STSong font was found, run
`_setup_english_font_mapping` (whose exceptions are caught); then set
the flag. When the flag is already set, do nothing. -/
def _init_pdfium_library (w : World) (hasSetFontInfo : Bool)
    (stsong_font : Option FsPath) (lib : PdfiumLibState)
    (initialized : Bool) : InitResult :=
  if initialized then ⟨lib, true, []⟩
  else
    let lib1 := freshLibState
    match stsong_font with
    | some _ =>
        let s := _setup_english_font_mapping w hasSetFontInfo lib1
        ⟨s.1, true, s.2 ++ ["PDFium initialized with English font mapping"]⟩
    | none => ⟨lib1, true, ["PDFium initialized with default font handling"]⟩

/-! ### Concrete fixtures used by the witnesses -/

/-- A 3-page US-Letter document (612 x 792 points per page). -/
def letterDoc : PdfDoc := ⟨3, fun _ => (612, 792)⟩

/-- A world in which only `input/document.pdf` exists and every render
and save succeeds. -/
def wEx : World :=
  ⟨fun p => p = "input/document.pdf", fun _ => letterDoc, fun _ _ => true, fun _ => true⟩

/-- Like `wEx` but the render of page index 1 fails. -/
def wFail : World :=
  ⟨fun p => p = "input/document.pdf", fun _ => letterDoc, fun _ n => n ≠ 1, fun _ => true⟩

/-- A world in which the second and third STSong candidate paths exist. -/
def wFont : World :=
  ⟨fun p => p = "/System/Library/Fonts/Songti.ttc" ∨ p = "/Library/Fonts/Songti.ttc",
   fun _ => letterDoc, fun _ _ => true, fun _ => true⟩

/-- A world in which only `/X/Songti.ttc` exists, for the
`system_profiler` scan fallback. -/
def wScan : World :=
  ⟨fun p => p = "/X/Songti.ttc", fun _ => letterDoc, fun _ _ => true, fun _ => true⟩

/-! ### Helper lemmas -/

/-- After a successful `loadStep`, `self.pdf` holds a document opened
from the requested path, its page count is the returned count, and a
repeated `loadStep` from the resulting state is a no-op. -/
theorem loadStep_ok_state {w : World} {st st' : ConverterState} {p : FsPath} {cnt : Nat}
    (h : loadStep w st p = .ok (cnt, st')) :
    ∃ lp, st'.pdf = some lp ∧ lp.name = p ∧ lp.doc.pageCount = cnt ∧
      loadStep w st' p = .ok (cnt, st') := by
  cases hst : st.pdf with
  | none =>
      simp only [loadStep, hst, load_pdf] at h
      split_ifs at h with hex
      · simp only [Except.ok.injEq, Prod.mk.injEq] at h
        obtain ⟨h1, h2⟩ := h
        exact ⟨⟨p, w.docs p⟩, by rw [← h2], rfl, h1, by simp [loadStep, ← h2, h1]⟩
  | some lp =>
      simp only [loadStep, hst] at h
      split_ifs at h with hname
      · simp only [Except.ok.injEq, Prod.mk.injEq] at h
        obtain ⟨h1, h2⟩ := h
        exact ⟨lp, by rw [← h2, hst], hname, h1, by simp [loadStep, ← h2, hst, hname, h1]⟩
      · simp only [load_pdf] at h
        split_ifs at h with hex
        · simp only [Except.ok.injEq, Prod.mk.injEq] at h
          obtain ⟨h1, h2⟩ := h
          exact ⟨⟨p, w.docs p⟩, by rw [← h2], rfl, h1, by simp [loadStep, ← h2, h1]⟩

/-- `convert_to_image` when the page index is out of range: the
`ValueError` branch, caught at the bottom of the method. -/
theorem convert_invalid {w : World} {st st' : ConverterState} {p : FsPath} {cnt : Nat}
    {out : Option FsPath} {dpi : ℚ} {page : Int}
    (hld : loadStep w st p = .ok (cnt, st'))
    (hpg : page < 0 ∨ page ≥ (cnt : Int)) :
    convert_to_image w st p out dpi page =
      ⟨none, some (.invalidPage page cnt), st', emptyTrace⟩ := by
  simp only [convert_to_image, hld]
  rw [if_pos hpg]

/-- `convert_to_image` on a valid page with an explicit output path,
when render and save both succeed. -/
theorem convert_ok_some {w : World} {st st' : ConverterState} {p : FsPath} {cnt : Nat}
    {lp : LoadedPdf} {o : FsPath} {dpi : ℚ} {page : Int}
    (hld : loadStep w st p = .ok (cnt, st')) (hpdf : st'.pdf = some lp)
    (h0 : 0 ≤ page) (hlt : page < (cnt : Int))
    (hro : w.renderOk p page.toNat = true) (hso : w.saveOk o = true) :
    convert_to_image w st p (some o) dpi page =
      ⟨some o, none, st', ⟨[⟨page.toNat, dpi / 72, 0⟩],
        [(o, renderDims (lp.doc.pageSizes page.toNat) (dpi / 72))], []⟩⟩ := by
  simp only [convert_to_image, hld]
  rw [if_neg (by push_neg; exact ⟨h0, hlt⟩)]
  simp only [hpdf, hro, hso, if_true]

/-- `convert_to_image` on a valid page with no output path supplied,
when render and save both succeed: the synthesized path is used and the
`output` directory is created. -/
theorem convert_ok_none {w : World} {st st' : ConverterState} {p : FsPath} {cnt : Nat}
    {lp : LoadedPdf} {dpi : ℚ} {page : Int}
    (hld : loadStep w st p = .ok (cnt, st')) (hpdf : st'.pdf = some lp)
    (h0 : 0 ≤ page) (hlt : page < (cnt : Int))
    (hro : w.renderOk p page.toNat = true)
    (hso : w.saveOk (synthPath p page) = true) :
    convert_to_image w st p none dpi page =
      ⟨some (synthPath p page), none, st', ⟨[⟨page.toNat, dpi / 72, 0⟩],
        [(synthPath p page, renderDims (lp.doc.pageSizes page.toNat) (dpi / 72))],
        ["output"]⟩⟩ := by
  simp only [convert_to_image, hld]
  rw [if_neg (by push_neg; exact ⟨h0, hlt⟩)]
  simp only [hpdf, hro, hso, if_true]

/-- `convert_to_image` on a valid page whose render fails: the error is
caught, nothing is written. -/
theorem convert_renderFail {w : World} {st st' : ConverterState} {p : FsPath} {cnt : Nat}
    {out : Option FsPath} {dpi : ℚ} {page : Int}
    (hld : loadStep w st p = .ok (cnt, st'))
    (h0 : 0 ≤ page) (hlt : page < (cnt : Int))
    (hro : w.renderOk p page.toNat = false) :
    convert_to_image w st p out dpi page =
      ⟨none, some .renderFailure, st', ⟨[⟨page.toNat, dpi / 72, 0⟩], [], []⟩⟩ := by
  simp only [convert_to_image, hld]
  rw [if_neg (by push_neg; exact ⟨h0, hlt⟩)]
  simp only [hro, if_false, Bool.false_eq_true]

/-- `convert_to_image` on a valid page with an explicit output path whose
save fails: the error is caught, nothing is written. -/
theorem convert_saveFail_some {w : World} {st st' : ConverterState} {p : FsPath} {cnt : Nat}
    {o : FsPath} {dpi : ℚ} {page : Int}
    (hld : loadStep w st p = .ok (cnt, st'))
    (h0 : 0 ≤ page) (hlt : page < (cnt : Int))
    (hro : w.renderOk p page.toNat = true) (hso : w.saveOk o = false) :
    convert_to_image w st p (some o) dpi page =
      ⟨none, some .saveFailure, st', ⟨[⟨page.toNat, dpi / 72, 0⟩], [], []⟩⟩ := by
  simp only [convert_to_image, hld]
  rw [if_neg (by push_neg; exact ⟨h0, hlt⟩)]
  simp only [hro, hso, if_true, if_false, Bool.false_eq_true]

/-! ### Claim theorems -/

/-- C3: `load_pdf` fails with `FileNotFound` exactly when the source path
does not exist — no document is opened and a conversion reaching the load
performs no render and writes nothing — and for every existing path it
opens the document and returns its page count. -/
theorem c3_load_pdf_file_check (w : World) (st : ConverterState) (p : FsPath) :
    (w.pathExists p = false → load_pdf w st p = .error (.fileNotFound p)) ∧
    (w.pathExists p = true →
      load_pdf w st p = .ok ((w.docs p).pageCount, ⟨some ⟨p, w.docs p⟩⟩)) ∧
    (w.pathExists p = false → st.pdf = none →
      ∀ (out : Option FsPath) (dpi : ℚ) (page : Int),
        convert_to_image w st p out dpi page =
          ⟨none, some (.fileNotFound p), st, emptyTrace⟩) := by
  refine ⟨fun h => ?_, fun h => ?_, fun h hst out dpi page => ?_⟩
  · simp [load_pdf, h]
  · simp [load_pdf, h]
  · simp [convert_to_image, loadStep, load_pdf, hst, h]

/-- Witness for C3 at a concrete world: a missing path fails with
`FileNotFound` (also through `convert_to_image`), an existing path
returns the page count 3. -/
theorem c3_load_pdf_file_check_witness :
    load_pdf wEx ⟨none⟩ "missing.pdf" = .error (.fileNotFound "missing.pdf") ∧
    load_pdf wEx ⟨none⟩ "input/document.pdf" =
      .ok (3, ⟨some ⟨"input/document.pdf", letterDoc⟩⟩) ∧
    convert_to_image wEx ⟨none⟩ "missing.pdf" none 150 0 =
      ⟨none, some (.fileNotFound "missing.pdf"), ⟨none⟩, emptyTrace⟩ :=
  ⟨(c3_load_pdf_file_check wEx ⟨none⟩ "missing.pdf").1 rfl,
   (c3_load_pdf_file_check wEx ⟨none⟩ "input/document.pdf").2.1 rfl,
   (c3_load_pdf_file_check wEx ⟨none⟩ "missing.pdf").2.2 rfl rfl none 150 0⟩

/-- C1: for every page index outside `[0, page_count)` of a successfully
loaded document, `convert_to_image` takes the `ValueError` branch,
returns the `None` sentinel, and performs no render, no output-path
synthesis (no directory creation), and no file write. -/
theorem c1_invalid_page_no_output {w : World} {st st' : ConverterState} {p : FsPath}
    {cnt : Nat} (out : Option FsPath) (dpi : ℚ) (page : Int)
    (hld : loadStep w st p = .ok (cnt, st'))
    (hpg : page < 0 ∨ page ≥ (cnt : Int)) :
    (convert_to_image w st p out dpi page).result = none ∧
    (convert_to_image w st p out dpi page).err = some (.invalidPage page cnt) ∧
    (convert_to_image w st p out dpi page).trace.renderCalls = [] ∧
    (convert_to_image w st p out dpi page).trace.writes = [] ∧
    (convert_to_image w st p out dpi page).trace.mkdirs = [] := by
  rw [convert_invalid hld hpg]
  exact ⟨rfl, rfl, rfl, rfl, rfl⟩

/-- Witness for C1: page index 5 of the 3-page document yields `None`
with an `InvalidPage` error and an empty effect trace. -/
theorem c1_invalid_page_no_output_witness :
    (convert_to_image wEx ⟨none⟩ "input/document.pdf" none 150 5).result = none ∧
    (convert_to_image wEx ⟨none⟩ "input/document.pdf" none 150 5).err =
      some (.invalidPage 5 3) ∧
    (convert_to_image wEx ⟨none⟩ "input/document.pdf" none 150 5).trace.renderCalls = [] ∧
    (convert_to_image wEx ⟨none⟩ "input/document.pdf" none 150 5).trace.writes = [] ∧
    (convert_to_image wEx ⟨none⟩ "input/document.pdf" none 150 5).trace.mkdirs = [] :=
  c1_invalid_page_no_output none 150 5 rfl (Or.inr (by decide))

/-- C2: for every valid page index and DPI, `convert_to_image` issues
exactly one render call with scale `dpi / 72` and rotation `0`, and the
image written has pixel dimensions
`round(width_pt * dpi/72) x round(height_pt * dpi/72)`. -/
theorem c2_render_scale_dims {w : World} {st st' : ConverterState} {p : FsPath}
    {cnt : Nat} {lp : LoadedPdf} (out : Option FsPath) (dpi : ℚ) (page : Int)
    (hld : loadStep w st p = .ok (cnt, st')) (hpdf : st'.pdf = some lp)
    (h0 : 0 ≤ page) (hlt : page < (cnt : Int))
    (hro : w.renderOk p page.toNat = true)
    (hso : w.saveOk (out.getD (synthPath p page)) = true) :
    (convert_to_image w st p out dpi page).trace.renderCalls =
      [⟨page.toNat, dpi / 72, 0⟩] ∧
    (convert_to_image w st p out dpi page).result =
      some (out.getD (synthPath p page)) ∧
    (convert_to_image w st p out dpi page).trace.writes =
      [(out.getD (synthPath p page),
        (round ((lp.doc.pageSizes page.toNat).1 * (dpi / 72)),
         round ((lp.doc.pageSizes page.toNat).2 * (dpi / 72))))] := by
  cases out with
  | none =>
      rw [convert_ok_none hld hpdf h0 hlt hro (by simpa using hso)]
      exact ⟨rfl, rfl, rfl⟩
  | some o =>
      rw [convert_ok_some hld hpdf h0 hlt hro (by simpa using hso)]
      exact ⟨rfl, rfl, rfl⟩

/-- Witness for C2: the 612 x 792 point page rendered at 150 DPI uses
scale `150/72` and yields a 1275 x 1650 pixel image. -/
theorem c2_render_scale_dims_witness :
    (convert_to_image wEx ⟨none⟩ "input/document.pdf"
        (some "output/doc.png") 150 0).trace.renderCalls = [⟨0, 150 / 72, 0⟩] ∧
    (convert_to_image wEx ⟨none⟩ "input/document.pdf"
        (some "output/doc.png") 150 0).result = some "output/doc.png" ∧
    (convert_to_image wEx ⟨none⟩ "input/document.pdf"
        (some "output/doc.png") 150 0).trace.writes =
      [("output/doc.png", (1275, 1650))] := by
  have h := c2_render_scale_dims (some "output/doc.png") 150 0
    (rfl : loadStep wEx ⟨none⟩ "input/document.pdf" =
      .ok (3, ⟨some ⟨"input/document.pdf", letterDoc⟩⟩))
    rfl (by decide) (by decide) rfl rfl
  exact ⟨h.1, h.2.1, by
    rw [h.2.2]
    simp only [wEx, letterDoc]
    norm_num [round_eq]⟩

/-- C8: when the converter already holds a document opened from a
different path, `convert_to_image` re-opens the document from the
requested (existing) path, so the resulting state refers to the
requested file in every branch. -/
theorem c8_reload_on_path_change {w : World} {st : ConverterState} {lp : LoadedPdf}
    {p : FsPath} (out : Option FsPath) (dpi : ℚ) (page : Int)
    (hst : st.pdf = some lp) (hne : lp.name ≠ p) (hex : w.pathExists p = true) :
    (convert_to_image w st p out dpi page).state = ⟨some ⟨p, w.docs p⟩⟩ := by
  have hld : loadStep w st p = .ok ((w.docs p).pageCount, ⟨some ⟨p, w.docs p⟩⟩) := by
    simp [loadStep, hst, hne, load_pdf, hex]
  simp only [convert_to_image, hld]
  split_ifs <;> rfl

/-- Witness for C8: a converter holding `other.pdf` asked to convert
`input/document.pdf` ends up holding `input/document.pdf`. -/
theorem c8_reload_on_path_change_witness :
    (convert_to_image wEx ⟨some ⟨"other.pdf", letterDoc⟩⟩ "input/document.pdf"
        none 150 0).state = ⟨some ⟨"input/document.pdf", letterDoc⟩⟩ :=
  c8_reload_on_path_change none 150 0 rfl (by decide) rfl

/-- C5: with no output path supplied, `convert_to_image` synthesizes
`output/<pdf_basename>_page_<page+1>.png`, creates the `output`
directory, and a second run with the same inputs derives the identical
filename and overwrites the first run's file with its own write. -/
theorem c5_synth_path_overwrite {w : World} {st st' : ConverterState} {p : FsPath}
    {cnt : Nat} {lp : LoadedPdf} (dpi : ℚ) (page : Int) (r1 r2 : ConvertResult)
    (hld : loadStep w st p = .ok (cnt, st')) (hpdf : st'.pdf = some lp)
    (h0 : 0 ≤ page) (hlt : page < (cnt : Int))
    (hro : w.renderOk p page.toNat = true)
    (hso : w.saveOk (synthPath p page) = true)
    (hr1 : r1 = convert_to_image w st p none dpi page)
    (hr2 : r2 = convert_to_image w r1.state p none dpi page) :
    ∃ d,
      r1.result = some (synthPath p page) ∧
      synthPath p page =
        "output/" ++ splitextRoot (basename p) ++ "_page_" ++
          toString (page + 1) ++ ".png" ∧
      r1.trace.mkdirs = ["output"] ∧
      r1.trace.writes = [(synthPath p page, d)] ∧
      r2.result = some (synthPath p page) ∧
      r2.trace.writes = [(synthPath p page, d)] ∧
      (∀ fs : FileStore,
        applyWrites (applyWrites fs r1.trace.writes) r2.trace.writes
          (synthPath p page) = some d) := by
  obtain ⟨lp', hpdf', _, _, hld2⟩ := loadStep_ok_state hld
  rw [hpdf] at hpdf'
  injection hpdf' with he
  subst he
  have h1 := @convert_ok_none w st st' p cnt lp dpi page hld hpdf h0 hlt hro hso
  have h2 := @convert_ok_none w st' st' p cnt lp dpi page hld2 hpdf h0 hlt hro hso
  subst hr1 hr2
  refine ⟨renderDims (lp.doc.pageSizes page.toNat) (dpi / 72), ?_⟩
  simp only [h1]
  simp only [h2]
  simp [applyWrites, synthPath]

/-- Witness for C5: converting page 0 of `input/document.pdf` twice with
no output path yields `output/document_page_1.png` both times, and the
second write lands on top of the first. -/
theorem c5_synth_path_overwrite_witness : ∃ d,
    (convert_to_image wEx ⟨none⟩ "input/document.pdf" none 150 0).result =
      some (synthPath "input/document.pdf" 0) ∧
    synthPath "input/document.pdf" 0 = "output/document_page_1.png" ∧
    (convert_to_image wEx
        (convert_to_image wEx ⟨none⟩ "input/document.pdf" none 150 0).state
        "input/document.pdf" none 150 0).result =
      some (synthPath "input/document.pdf" 0) ∧
    (∀ fs : FileStore,
      applyWrites
        (applyWrites fs
          (convert_to_image wEx ⟨none⟩ "input/document.pdf" none 150 0).trace.writes)
        (convert_to_image wEx
          (convert_to_image wEx ⟨none⟩ "input/document.pdf" none 150 0).state
          "input/document.pdf" none 150 0).trace.writes
        (synthPath "input/document.pdf" 0) = some d) := by
  obtain ⟨d, ha, _, _, _, he, _, hg⟩ := c5_synth_path_overwrite 150 0
    (convert_to_image wEx ⟨none⟩ "input/document.pdf" none 150 0)
    (convert_to_image wEx
      (convert_to_image wEx ⟨none⟩ "input/document.pdf" none 150 0).state
      "input/document.pdf" none 150 0)
    (rfl : loadStep wEx ⟨none⟩ "input/document.pdf" =
      .ok (3, ⟨some ⟨"input/document.pdf", letterDoc⟩⟩))
    rfl (by decide) (by decide) rfl rfl rfl rfl
  exact ⟨d, ha, rfl, he, hg⟩

/-- The output path the batch loop uses for page index `n`. -/
def pageOutPath (pdf_path : FsPath) (output_dir : String) (n : Nat) : FsPath :=
  batchOutPath output_dir (splitextRoot (basename pdf_path)) n

/-- Whether page `n` of the batch succeeds: its render and its save both
succeed. -/
def pageSucceeds (w : World) (pdf_path : FsPath) (output_dir : String) (n : Nat) : Bool :=
  w.renderOk pdf_path n && w.saveOk (pageOutPath pdf_path output_dir n)

/-- A guarded `filterMap` is a sublist of the corresponding `map`. -/
theorem filterMap_guard_sublist {α : Type} (f : Nat → α) (ok : Nat → Bool) :
    ∀ l : List Nat,
      (l.filterMap (fun n => if ok n then some (f n) else none)).Sublist (l.map f)
  | [] => List.Sublist.slnil
  | n :: t => by
      by_cases h : ok n = true
      · simpa [List.filterMap_cons, h] using
          (filterMap_guard_sublist f ok t).cons₂ (f n)
      · simpa [List.filterMap_cons, h] using
          (filterMap_guard_sublist f ok t).cons (f n)

/-- If some element of the list fails the guard, the guarded `filterMap`
is strictly shorter than the list. -/
theorem filterMap_guard_length_lt {α : Type} (f : Nat → α) (ok : Nat → Bool)
    {a : Nat} : ∀ {l : List Nat}, a ∈ l → ok a = false →
      (l.filterMap (fun n => if ok n then some (f n) else none)).length < l.length := by
  intro l
  induction l with
  | nil => intro h; exact absurd h (List.not_mem_nil a)
  | cons n t ih =>
      intro hmem hfail
      rcases List.mem_cons.mp hmem with he | ht
      · subst he
        simp only [List.filterMap_cons, hfail, Bool.false_eq_true, if_false,
          List.length_cons]
        exact Nat.lt_succ_of_le (List.length_filterMap_le _ _)
      · by_cases h : ok n = true
        · simpa [List.filterMap_cons, h] using Nat.succ_lt_succ (ih ht hfail)
        · simp only [List.filterMap_cons, h, Bool.false_eq_true, if_false,
            List.length_cons]
          exact Nat.lt_succ_of_lt (ih ht hfail)

/-- When `f` is `some ∘ g` on every element, `filterMap f` is `map g`. -/
theorem filterMap_all_some {α : Type} {f : Nat → Option α} {g : Nat → α} :
    ∀ l : List Nat, (∀ n ∈ l, f n = some (g n)) → l.filterMap f = l.map g
  | [], _ => rfl
  | n :: t, h => by
      rw [List.filterMap_cons, h n (List.mem_cons_self n t),
        filterMap_all_some t (fun m hm => h m (List.mem_cons_of_mem _ hm))]
      rfl

/-- The batch loop, run from a state already holding the requested
document, appends exactly the successful pages' output paths and leaves
the state unchanged. -/
theorem batch_foldl {w : World} {pdf_path : FsPath} {output_dir : String} {dpi : ℚ}
    {stL : ConverterState} {lp : LoadedPdf} {cnt : Nat}
    (hld : loadStep w stL pdf_path = .ok (cnt, stL)) (hpdf : stL.pdf = some lp) :
    ∀ l : List Nat, (∀ n ∈ l, n < cnt) → ∀ acc : List FsPath,
      l.foldl (batchStep w pdf_path output_dir (splitextRoot (basename pdf_path)) dpi)
          (acc, stL) =
        (acc ++ l.filterMap (fun n =>
          if pageSucceeds w pdf_path output_dir n
          then some (pageOutPath pdf_path output_dir n) else none), stL) := by
  intro l
  induction l with
  | nil => intro _ acc; simp
  | cons n t ih =>
      intro hl acc
      have hn : n < cnt := hl n (List.mem_cons_self n t)
      have ht : ∀ m ∈ t, m < cnt := fun m hm => hl m (List.mem_cons_of_mem _ hm)
      have hlt : ((n : Int)) < (cnt : Int) := by exact_mod_cast hn
      have h0 : (0 : Int) ≤ (n : Int) := Int.ofNat_nonneg n
      have hstep : batchStep w pdf_path output_dir (splitextRoot (basename pdf_path))
          dpi (acc, stL) n =
          (acc ++ (if pageSucceeds w pdf_path output_dir n
            then [pageOutPath pdf_path output_dir n] else []), stL) := by
        by_cases hro : w.renderOk pdf_path n = true
        · by_cases hso : w.saveOk (pageOutPath pdf_path output_dir n) = true
          · simp only [batchStep]
            rw [convert_ok_some hld hpdf h0 hlt (by simpa using hro)
              (by simpa [pageOutPath] using hso)]
            have hso' : w.saveOk (batchOutPath output_dir
                (splitextRoot (basename pdf_path)) n) = true := hso
            simp [pageSucceeds, hro, hso', pageOutPath]
          · simp only [batchStep]
            rw [convert_saveFail_some hld h0 hlt (by simpa using hro)
              (by simpa [pageOutPath] using (Bool.not_eq_true _).mp hso)]
            have hso' : w.saveOk (batchOutPath output_dir
                (splitextRoot (basename pdf_path)) n) = false :=
              (Bool.not_eq_true _).mp (by simpa [pageOutPath] using hso)
            simp [pageSucceeds, hro, hso', pageOutPath]
        · simp only [batchStep]
          rw [convert_renderFail hld h0 hlt
            (by simpa using (Bool.not_eq_true _).mp hro)]
          simp [pageSucceeds, hro]
      rw [List.foldl_cons, hstep, ih ht]
      by_cases hok : pageSucceeds w pdf_path output_dir n = true
      · simp [List.filterMap_cons, hok]
      · simp [List.filterMap_cons, hok]

/-- C4: for a loadable document, `convert_all_pages` processes page
indices `0` to `page_count - 1` in ascending order and returns exactly
the successfully written output paths: all of them when every page
succeeds, a strict subset (never an exception) when some pages fail. -/
theorem c4_convert_all_pages (w : World) (st : ConverterState) (pdf_path : FsPath)
    (output_dir : String) (dpi : ℚ) (hex : w.pathExists pdf_path = true) :
    (convert_all_pages w st pdf_path output_dir dpi).1 =
      (List.range (w.docs pdf_path).pageCount).filterMap (fun n =>
        if pageSucceeds w pdf_path output_dir n
        then some (pageOutPath pdf_path output_dir n) else none) ∧
    ((∀ n, n < (w.docs pdf_path).pageCount →
        pageSucceeds w pdf_path output_dir n = true) →
      (convert_all_pages w st pdf_path output_dir dpi).1 =
        (List.range (w.docs pdf_path).pageCount).map
          (pageOutPath pdf_path output_dir)) ∧
    ((∃ n, n < (w.docs pdf_path).pageCount ∧
        pageSucceeds w pdf_path output_dir n = false) →
      (convert_all_pages w st pdf_path output_dir dpi).1.Sublist
        ((List.range (w.docs pdf_path).pageCount).map
          (pageOutPath pdf_path output_dir)) ∧
      (convert_all_pages w st pdf_path output_dir dpi).1.length <
        (w.docs pdf_path).pageCount) := by
  have hload : load_pdf w st pdf_path =
      .ok ((w.docs pdf_path).pageCount,
        (⟨some ⟨pdf_path, w.docs pdf_path⟩⟩ : ConverterState)) := by
    simp [load_pdf, hex]
  have hld : loadStep w (⟨some ⟨pdf_path, w.docs pdf_path⟩⟩ : ConverterState) pdf_path =
      .ok ((w.docs pdf_path).pageCount,
        (⟨some ⟨pdf_path, w.docs pdf_path⟩⟩ : ConverterState)) := by
    simp [loadStep]
  have hmain : (convert_all_pages w st pdf_path output_dir dpi).1 =
      (List.range (w.docs pdf_path).pageCount).filterMap (fun n =>
        if pageSucceeds w pdf_path output_dir n
        then some (pageOutPath pdf_path output_dir n) else none) := by
    simp only [convert_all_pages, hload]
    rw [batch_foldl hld rfl (List.range (w.docs pdf_path).pageCount)
      (fun n hn => List.mem_range.mp hn) []]
    simp
  refine ⟨hmain, fun hall => ?_, fun hfail => ?_⟩
  · rw [hmain]
    exact filterMap_all_some _ (fun n hn => by
      rw [if_pos (hall n (List.mem_range.mp hn))])
  · obtain ⟨n, hn, hbad⟩ := hfail
    refine ⟨hmain ▸ filterMap_guard_sublist _ _ _, ?_⟩
    rw [hmain]
    simpa using filterMap_guard_length_lt (pageOutPath pdf_path output_dir)
      (pageSucceeds w pdf_path output_dir) (List.mem_range.mpr hn) hbad

/-- Witness for C4: in `wEx` all three pages succeed, giving the three
paths in ascending page order; in `wFail` page index 1 fails and the
batch returns a strict subset without raising. -/
theorem c4_convert_all_pages_witness :
    (convert_all_pages wEx ⟨none⟩ "input/document.pdf" "output" 150).1 =
      ["output/document_page_1.png", "output/document_page_2.png",
       "output/document_page_3.png"] ∧
    (convert_all_pages wFail ⟨none⟩ "input/document.pdf" "output" 150).1.Sublist
      ["output/document_page_1.png", "output/document_page_2.png",
       "output/document_page_3.png"] ∧
    (convert_all_pages wFail ⟨none⟩ "input/document.pdf" "output" 150).1.length < 3 := by
  have h1 := (c4_convert_all_pages wEx ⟨none⟩ "input/document.pdf" "output" 150 rfl).2.1
    (fun n _ => rfl)
  have h2 := (c4_convert_all_pages wFail ⟨none⟩ "input/document.pdf" "output" 150 rfl).2.2
    ⟨1, by decide, by decide⟩
  have hmapF : (List.range (wFail.docs "input/document.pdf").pageCount).map
      (pageOutPath "input/document.pdf" "output") =
      ["output/document_page_1.png", "output/document_page_2.png",
       "output/document_page_3.png"] := rfl
  exact ⟨by rw [h1]; rfl, hmapF ▸ h2.1, h2.2⟩

/-- C6: `_find_stsong_font` returns the first existing path of its fixed
ordered candidate list regardless of the subprocess; when no candidate
exists it scans the font-enumeration output only on a clean exit
(return code 0), and a raised/timed-out subprocess or nonzero return
code is swallowed into `None`; the probe is a total function and cannot
fail the run. -/
theorem c6_find_stsong_font (w : World) :
    (∀ p, stsong_font_paths.find? w.pathExists = some p →
      ∀ sub, _find_stsong_font w sub = some p) ∧
    (stsong_font_paths.find? w.pathExists = none →
      _find_stsong_font w .failed = none) ∧
    (∀ rc out, rc ≠ 0 → stsong_font_paths.find? w.pathExists = none →
      _find_stsong_font w (.completed rc out) = none) ∧
    (∀ out, stsong_font_paths.find? w.pathExists = none →
      _find_stsong_font w (.completed 0 out) =
        ((splitOnChar '\n' out.data).map (fun cs => (⟨cs⟩ : String))).findSome?
          (scanFontLine w)) := by
  refine ⟨fun p hp sub => ?_, fun hn => ?_, fun rc out hrc hn => ?_, fun out hn => ?_⟩
  · cases sub <;> simp [_find_stsong_font, hp]
  · simp [_find_stsong_font, hn]
  · simp [_find_stsong_font, hn, hrc]
  · simp [_find_stsong_font, hn]

/-- Witness for C6: in `wFont` the first existing candidate (the second
list entry) wins; in `wEx` a failed subprocess, a nonzero return code,
and a clean scan that finds `/X/Songti.ttc` behave as stated. -/
theorem c6_find_stsong_font_witness :
    _find_stsong_font wFont .failed = some "/System/Library/Fonts/Songti.ttc" ∧
    _find_stsong_font wEx .failed = none ∧
    _find_stsong_font wEx (.completed 1 "Location: /X/Songti.ttc") = none ∧
    _find_stsong_font wScan (.completed 0 "Fonts:\n Location: /X/Songti.ttc \nend") =
      some "/X/Songti.ttc" := by
  refine ⟨(c6_find_stsong_font wFont).1 "/System/Library/Fonts/Songti.ttc" rfl .failed,
    (c6_find_stsong_font wEx).2.1 rfl,
    (c6_find_stsong_font wEx).2.2.1 1 "Location: /X/Songti.ttc" (by decide) rfl,
    ?_⟩
  rw [(c6_find_stsong_font wScan).2.2.2 "Fonts:\n Location: /X/Songti.ttc \nend" rfl]
  rfl

/-- C7: with no argument beyond the program name, `main` prints usage and
exits with code 1; when the single-page conversion fails, `main` prints a
failure message and returns normally with exit code 0. -/
theorem c7_cli_exit_codes (w : World) (argv : List String) :
    (argv.length < 2 → main_cli w argv =
      ⟨1, true, none, false⟩) ∧
    (argv.length ≥ 2 → (parse_args argv).convert_all = false →
      (convert_to_image w ⟨none⟩ (parse_args argv).pdf_path
        (parse_args argv).output_path ((parse_args argv).dpi : ℚ)
        (parse_args argv).page).result = none →
      (main_cli w argv).exitCode = 0 ∧ (main_cli w argv).failMsg = true) := by
  constructor
  · intro h; simp [main_cli, h]
  · intro h2 hnall hres
    have hlt : ¬ argv.length < 2 := not_lt.mpr h2
    simp [main_cli, hlt, hnall, hres]

/-- Witness for C7: `["prog"]` exits 1 with usage; a failing conversion
of a missing file exits 0 with a failure message. -/
theorem c7_cli_exit_codes_witness :
    main_cli wEx ["prog"] = ⟨1, true, none, false⟩ ∧
    (main_cli wEx ["prog", "missing.pdf"]).exitCode = 0 ∧
    (main_cli wEx ["prog", "missing.pdf"]).failMsg = true := by
  have hu := (c7_cli_exit_codes wEx ["prog"]).1 (by decide)
  have hf := (c7_cli_exit_codes wEx ["prog", "missing.pdf"]).2 (by decide) rfl rfl
  exact ⟨hu, hf.1, hf.2⟩

/-- C10: when the third CLI argument parses as an integer DPI but the
fourth (the page number) does not, the shared `ValueError` handler
resets the DPI to the default 150 and the page stays 0 — the valid
user-supplied DPI is discarded. -/
theorem c10_bad_page_discards_dpi (argv : List String) (d : Int)
    (h2 : 2 < argv.length) (hnall : argv.getD 2 "" ≠ "--all")
    (h4 : 4 < argv.length)
    (hd : pyInt (argv.getD 3 "") = some d)
    (hp : pyInt (argv.getD 4 "") = none) :
    (parse_args argv).dpi = 150 ∧ (parse_args argv).page = 0 := by
  have h3 : 3 < argv.length := by omega
  simp only [parse_args, if_pos h2, if_neg hnall, if_pos h3, hd, if_pos h4, hp]
  simp

/-- Witness for C10: `["prog", "a.pdf", "out.png", "300", "xyz"]` parses
to DPI 150 (the valid 300 is discarded) and page 0. -/
theorem c10_bad_page_discards_dpi_witness :
    (parse_args ["prog", "a.pdf", "out.png", "300", "xyz"]).dpi = 150 ∧
    (parse_args ["prog", "a.pdf", "out.png", "300", "xyz"]).page = 0 :=
  c10_bad_page_discards_dpi ["prog", "a.pdf", "out.png", "300", "xyz"] 300
    (by decide) (by decide) (by decide) rfl rfl

/-- C9: `_setup_english_font_mapping` returns the engine state it was
given (it performs logging only), so `_init_pdfium_library` yields the
same engine state whether or not an STSong font was found, and every
rasterization function consuming that state produces identical output
in both cases. -/
theorem c9_font_mapping_noop (w : World) (hasSetFontInfo : Bool)
    (lib : PdfiumLibState) (initialized : Bool) :
    (_setup_english_font_mapping w hasSetFontInfo lib).1 = lib ∧
    (∀ f₁ f₂ : Option FsPath,
      (_init_pdfium_library w hasSetFontInfo f₁ lib initialized).lib =
        (_init_pdfium_library w hasSetFontInfo f₂ lib initialized).lib) ∧
    (∀ {α : Type} (render : PdfiumLibState → α) (f₁ f₂ : Option FsPath),
      render (_init_pdfium_library w hasSetFontInfo f₁ lib initialized).lib =
        render (_init_pdfium_library w hasSetFontInfo f₂ lib initialized).lib) := by
  refine ⟨rfl, fun f₁ f₂ => ?_, fun render f₁ f₂ => ?_⟩
  · cases initialized <;> cases f₁ <;> cases f₂ <;> rfl
  · cases initialized <;> cases f₁ <;> cases f₂ <;> rfl
